import Mathlib

/-!
# CLARAI client-side authentication core: shallow embedding

This file embeds the authentication/session module of the CLARAI
repository (the `AuthProvider` React context) as pure Lean functions and
proves the specified properties about them.

Modelling conventions, mirroring the TypeScript source:

* The persistent record store (three `localStorage` keys) and the
  in-memory React state (`user`, `loading`) are combined into one
  explicit `AuthState` record; every operation is a pure function from
  `AuthState` to a result paired with the next `AuthState`.
* The digest function `hashString` is SHA-256 (with a `btoa` fallback), an
  external cryptographic primitive; the state machine only ever applies it
  and compares its outputs, so the embedding passes it as an explicit
  parameter `hash : String → String`.  Theorems that depend on two digests
  differing take that inequality (a consequence of collision resistance)
  as a hypothesis.
* `Date.now()` values and the `expiresAt` timestamp (an ISO string in the
  source, produced from and compared through `Date#getTime`) are modelled
  as natural numbers of milliseconds; `createdAt` is never parsed by the
  source, so it stays an opaque `String`.
* `Math.random()` in `generateOtp` is modelled by a natural number draw
  `rand` with `rand < 900000`, standing for `⌊random * 900000⌋`
  (`Math.floor (100000 + r * 900000) = 100000 + ⌊r * 900000⌋`).
* Thrown `Error`s become an `AuthError` value; `runAuthAction` re-signals
  the failure after any side effects already applied, so each operation
  returns `Except AuthError α × AuthState` (the state component records
  mutations that happen even on a failing path, e.g. token purge on
  expiry).
-/

/-- `StoredAccount` record persisted under `clarai.auth.accounts`. -/
structure StoredAccount where
  email : String
  passwordHash : String
  createdAt : String
  deriving Repr, DecidableEq

/-- `PasswordResetToken` record persisted under `clarai.auth.resetTokens`.
`expiresAt` is an ISO timestamp in the source, compared via `getTime`;
modelled as milliseconds. -/
structure PasswordResetToken where
  email : String
  otpHash : String
  expiresAt : Nat
  deriving Repr, DecidableEq

/-- `AuthUser`: the in-memory projection of an account (no digest). -/
structure AuthUser where
  email : String
  createdAt : String
  deriving Repr, DecidableEq

/-- The distinguishable failures thrown by the auth operations
(§7 error taxonomy; each is a distinct `Error` message in the source). -/
inductive AuthError where
  | accountNotFound
  | invalidCredential
  | duplicateAccount
  | resetNotFound
  | resetExpired
  | invalidCode
  deriving Repr, DecidableEq

/-- The human-readable message each failure carries in the source. -/
def AuthError.message : AuthError → String
  | .accountNotFound => "Account not found. Please sign up first."
  | .invalidCredential => "Incorrect password. Please try again."
  | .duplicateAccount => "An account with this email already exists. Try signing in."
  | .resetNotFound => "No reset request found for this email. Please request a new code."
  | .resetExpired => "The OTP has expired. Please request a new code."
  | .invalidCode => "Invalid OTP. Double-check the code and try again."

/-- The possible shapes of a raw persisted value as distinguished by the
reader functions: `getItem` returned nothing (`missing`), `JSON.parse`
threw (`notJson`), it parsed but not to an array (`nonArray`), or it
parsed to an array of records (`array`). -/
inductive RawStored (α : Type) where
  | missing
  | notJson
  | nonArray
  | array (xs : List α)
  deriving Repr, DecidableEq

/-- `getAccounts` (source lines 57–72): returns `[]` for a missing raw
value, catches a `JSON.parse` failure and returns `[]`, returns `[]` when
the parse result is not an array, and otherwise the parsed array. -/
def getAccounts : RawStored StoredAccount → List StoredAccount
  | .missing => []
  | .notJson => []
  | .nonArray => []
  | .array xs => xs

/-- `getResetTokens` (source lines 93–108): same recovery behaviour as
`getAccounts`, for the reset-token collection. -/
def getResetTokens : RawStored PasswordResetToken → List PasswordResetToken
  | .missing => []
  | .notJson => []
  | .nonArray => []
  | .array xs => xs

/-- `generateOtp` (source lines 53–55):
`Math.floor(100000 + Math.random() * 900000).toString()`, with the random
draw `⌊Math.random() * 900000⌋` modelled as `rand` (so `rand < 900000`
whenever the draw comes from `Math.random() ∈ [0, 1)`). -/
def generateOtp (rand : Nat) : String :=
  Nat.repr (100000 + rand)

/-- Combined durable + in-memory state of the auth module: the three
stored collections (accounts, session pointer, reset tokens) and the
React state (`user`, `loading`). -/
structure AuthState where
  accounts : List StoredAccount
  session : Option String
  resetTokens : List PasswordResetToken
  user : Option AuthUser
  loading : Bool
  deriving Repr, DecidableEq

/-- The state of a fresh profile: empty store, provider mounted
(`useState(null)`, `useState(true)` for loading). -/
def initialState : AuthState :=
  { accounts := [], session := none, resetTokens := [], user := none, loading := true }

/-- `isAuthenticated: Boolean(user)` (source line 159). -/
def isAuthenticated (s : AuthState) : Bool :=
  s.user.isSome

/-- `persistSession` (source lines 79–86): `if (!email)` removes the
session key, otherwise stores the email.  A JS string argument is falsy
exactly when it is `null` (`none` here) or the empty string, so
`persistSession (some "")` clears the pointer rather than setting it. -/
def persistSession (email : Option String) (s : AuthState) : AuthState :=
  match email with
  | none => { s with session := none }
  | some e =>
      if e == "" then { s with session := none }
      else { s with session := some e }

/-- `loadAccountForEmail` (source lines 120–124): `if (!email)` returns
`null` — for the `null` pointer and for the empty string alike —
otherwise the first stored account whose email equals the lowercased
email. -/
def loadAccountForEmail (email : Option String) (s : AuthState) : Option StoredAccount :=
  match email with
  | none => none
  | some e =>
      if e == "" then none
      else s.accounts.find? (fun item => item.email == e.toLower)

/-- `initialiseSession` (source lines 126–140): resolve the session
pointer at startup; on a dangling or absent pointer clear it and the
user, then clear `loading`. -/
def initialiseSession (s : AuthState) : AuthState :=
  match loadAccountForEmail s.session s with
  | some account =>
      { s with user := some ⟨account.email, account.createdAt⟩, loading := false }
  | none =>
      persistSession none { s with user := none, loading := false }

/-- `signIn` (source lines 163–177), parameterised by the digest
function `hash`. -/
def signIn (hash : String → String) (email password : String) (s : AuthState) :
    Except AuthError Unit × AuthState :=
  let normalizedEmail := email.toLower
  match s.accounts.find? (fun account => account.email == normalizedEmail) with
  | none => (.error .accountNotFound, s)
  | some existing =>
      if existing.passwordHash ≠ hash password then
        (.error .invalidCredential, s)
      else
        (.ok (), persistSession (some existing.email)
          { s with user := some ⟨existing.email, existing.createdAt⟩ })

/-- `signUp` (source lines 178–194); `createdAt` stands for
`new Date().toISOString()` at the call. -/
def signUp (hash : String → String) (email password createdAt : String) (s : AuthState) :
    Except AuthError Unit × AuthState :=
  let normalizedEmail := email.toLower
  if s.accounts.any (fun account => account.email == normalizedEmail) then
    (.error .duplicateAccount, s)
  else
    let newAccount : StoredAccount :=
      { email := normalizedEmail, passwordHash := hash password, createdAt := createdAt }
    (.ok (), persistSession (some newAccount.email)
      { s with
        accounts := s.accounts ++ [newAccount],
        user := some ⟨newAccount.email, newAccount.createdAt⟩ })

/-- `signOut` (source lines 195–199): clears the session pointer and the
in-memory user; never fails. -/
def signOut (s : AuthState) : Except AuthError Unit × AuthState :=
  (.ok (), persistSession none { s with user := none })

/-- `requestPasswordReset` (source lines 200–215); `rand` models the
`Math.random()` draw inside `generateOtp` and `now` models `Date.now()`.
Returns the plaintext one-time code on success. -/
def requestPasswordReset (hash : String → String) (email : String) (rand now : Nat)
    (s : AuthState) : Except AuthError String × AuthState :=
  let normalizedEmail := email.toLower
  match s.accounts.find? (fun account => account.email == normalizedEmail) with
  | none => (.error .accountNotFound, s)
  | some _ =>
      let otp := generateOtp rand
      let otpHash := hash otp
      let expiresAt := now + 10 * 60 * 1000
      let tokens := s.resetTokens.filter (fun token => token.email != normalizedEmail)
      (.ok otp, { s with
        resetTokens := tokens ++ [{ email := normalizedEmail, otpHash := otpHash,
                                    expiresAt := expiresAt }] })

/-- `verifyPasswordReset` (source lines 216–249); `now` models
`Date.now()` at the expiry check.  On the expiry path the purge of the
token is persisted before the failure is re-signalled, so the failing
result carries the mutated state. -/
def verifyPasswordReset (hash : String → String) (email otp newPassword : String) (now : Nat)
    (s : AuthState) : Except AuthError Unit × AuthState :=
  let normalizedEmail := email.toLower
  let tokens := s.resetTokens
  match tokens.find? (fun item => item.email == normalizedEmail) with
  | none => (.error .resetNotFound, s)
  | some token =>
      if token.expiresAt < now then
        (.error .resetExpired,
          { s with resetTokens := tokens.filter (fun item => item.email != normalizedEmail) })
      else if hash otp ≠ token.otpHash then
        (.error .invalidCode, s)
      else
        match s.accounts.findIdx? (fun account => account.email == normalizedEmail) with
        | none => (.error .accountNotFound, s)
        | some existingIndex =>
            match s.accounts[existingIndex]? with
            | none => (.error .accountNotFound, s)
            | some existing =>
                let updated : StoredAccount := { existing with passwordHash := hash newPassword }
                let updatedAccounts := s.accounts.set existingIndex updated
                (.ok (), persistSession (some updated.email)
                  { s with
                    accounts := updatedAccounts,
                    resetTokens := tokens.filter (fun item => item.email != normalizedEmail),
                    user := some ⟨updated.email, updated.createdAt⟩ })

/-- `refreshSession` (source lines 250–261): re-resolve the session
pointer; returns whether a valid session was (re)established, clearing a
dangling pointer. -/
def refreshSession (s : AuthState) : Except AuthError Bool × AuthState :=
  match loadAccountForEmail s.session s with
  | some account =>
      (.ok true, { s with user := some ⟨account.email, account.createdAt⟩ })
  | none =>
      (.ok false, persistSession none { s with user := none })

/-- One invocation of a public auth operation, with the ambient inputs
(timestamps, random draw) made explicit. -/
inductive AuthOp where
  | opSignIn (email password : String)
  | opSignUp (email password createdAt : String)
  | opSignOut
  | opRequestReset (email : String) (rand now : Nat)
  | opVerifyReset (email otp newPassword : String) (now : Nat)
  | opRefreshSession
  | opInitialiseSession
  deriving Repr

/-- The state after one operation (results discarded). -/
def stepOp (hash : String → String) (op : AuthOp) (s : AuthState) : AuthState :=
  match op with
  | .opSignIn email password => (signIn hash email password s).2
  | .opSignUp email password createdAt => (signUp hash email password createdAt s).2
  | .opSignOut => (signOut s).2
  | .opRequestReset email rand now => (requestPasswordReset hash email rand now s).2
  | .opVerifyReset email otp newPassword now =>
      (verifyPasswordReset hash email otp newPassword now s).2
  | .opRefreshSession => (refreshSession s).2
  | .opInitialiseSession => initialiseSession s

/-- The state reached from the empty store by a sequence of
operations. -/
def runOps (hash : String → String) (ops : List AuthOp) : AuthState :=
  ops.foldl (fun s op => stepOp hash op s) initialState

/-! ## Concrete fixtures used by witnesses -/

/-- The decimal digit characters of `n`, most significant first: the
reference function used to characterise `Nat.repr` (and through it the
string produced by `generateOtp`). -/
def decChars (n : Nat) : List Char :=
  if _h : n < 10 then [Nat.digitChar n]
  else decChars (n / 10) ++ [Nat.digitChar (n % 10)]
termination_by n
decreasing_by
  exact Nat.div_lt_self (by omega) (by decide)

/-- The account-collection invariant maintained by the auth state
machine: stored emails are pairwise distinct and each stored email is
already in normalized (lowercase) form. -/
def AccountsInv (s : AuthState) : Prop :=
  s.accounts.Pairwise (fun a b => a.email ≠ b.email) ∧
  ∀ a ∈ s.accounts, a.email.toLower = a.email

/-- A state whose session pointer dangles: it names an email but the
accounts collection is empty. -/
def ghostState : AuthState :=
  { accounts := [], session := some "ghost@x.com", resetTokens := [],
    user := some ⟨"ghost@x.com", "t0"⟩, loading := false }

/-- A state with one account and an already-expired reset token for it
(`expiresAt = 1000`), under the identity digest. -/
def expiredState : AuthState :=
  { accounts := [⟨"a@b.com", "h0", "t0"⟩], session := none,
    resetTokens := [⟨"a@b.com", "123456", 1000⟩], user := none, loading := false }

/-- A state with one account and a live reset token for it
(`expiresAt = 600000`), under the identity digest (`otpHash = "123456"`). -/
def liveResetState : AuthState :=
  { accounts := [⟨"a@b.com", "h0", "t0"⟩], session := none,
    resetTokens := [⟨"a@b.com", "123456", 600000⟩], user := none, loading := false }

/-- A state holding the degenerate empty-email account (reachable via
the unvalidated `signUp "" ""`) and a live reset token for it, under the
identity digest. -/
def emptyEmailState : AuthState :=
  { accounts := [⟨"", "h0", "t0"⟩], session := none,
    resetTokens := [⟨"", "123456", 600000⟩], user := none, loading := false }

/-! ## Theorems -/

/-- `persistSession` touches only the session pointer: the accounts are
preserved on every branch. -/
theorem persistSession_accounts (email : Option String) (s : AuthState) :
    (persistSession email s).accounts = s.accounts := by
  cases email with
  | none => rfl
  | some e => by_cases he : e == "" <;> simp [persistSession, he]

/-- `persistSession` preserves the in-memory user on every branch. -/
theorem persistSession_user (email : Option String) (s : AuthState) :
    (persistSession email s).user = s.user := by
  cases email with
  | none => rfl
  | some e => by_cases he : e == "" <;> simp [persistSession, he]

/-- `persistSession` preserves the reset tokens on every branch. -/
theorem persistSession_resetTokens (email : Option String) (s : AuthState) :
    (persistSession email s).resetTokens = s.resetTokens := by
  cases email with
  | none => rfl
  | some e => by_cases he : e == "" <;> simp [persistSession, he]

/-- The session pointer after `persistSession`: cleared for a falsy
email (`none` or `""`), set otherwise. -/
theorem persistSession_session (e : String) (s : AuthState) :
    (persistSession (some e) s).session = (if e == "" then none else some e) := by
  by_cases he : e == "" <;> simp [persistSession, he]

/-- `persistSession` preserves the account-collection invariant. -/
theorem accountsInv_persistSession (email : Option String) (s : AuthState)
    (h : AccountsInv s) : AccountsInv (persistSession email s) := by
  obtain ⟨h1, h2⟩ := h
  constructor
  · rw [persistSession_accounts]
    exact h1
  · intro a ha
    rw [persistSession_accounts] at ha
    exact h2 a ha

/-- After removing every reset token for email `x`, a lookup for `x`
finds nothing. -/
theorem find?_email_filter_ne (l : List PasswordResetToken) (x : String) :
    (l.filter (fun item => item.email != x)).find? (fun item => item.email == x) = none := by
  rw [List.find?_eq_none]
  intro a ha
  have h := (List.mem_filter.mp ha).2
  simp only [bne_iff_ne, ne_eq] at h
  simp [h]

/-- C8: Corruption tolerance of store reads: a raw Accounts or Reset
Tokens value that is missing, not valid JSON, or not an array reads back
as the empty collection, and every read returns either the empty
collection or the parsed array — never a failure. -/
theorem C8_corrupt_reads_recover :
    (getAccounts .missing = [] ∧ getAccounts .notJson = [] ∧ getAccounts .nonArray = []) ∧
    (getResetTokens .missing = [] ∧ getResetTokens .notJson = [] ∧
      getResetTokens .nonArray = []) ∧
    (∀ raw : RawStored StoredAccount,
      getAccounts raw = [] ∨ ∃ xs, raw = .array xs ∧ getAccounts raw = xs) ∧
    (∀ raw : RawStored PasswordResetToken,
      getResetTokens raw = [] ∨ ∃ xs, raw = .array xs ∧ getResetTokens raw = xs) := by
  refine ⟨⟨rfl, rfl, rfl⟩, ⟨rfl, rfl, rfl⟩, ?_, ?_⟩ <;>
    (intro raw; cases raw <;> simp [getAccounts, getResetTokens])

/-- C9: signOut idempotence and infallibility: from every state,
`signOut` succeeds, clears the session pointer and the user, leaves
`isAuthenticated` false, and a second call is a no-op success returning
the same state. -/
theorem C9_signOut_idempotent (s : AuthState) :
    (signOut s).1 = .ok () ∧
    (signOut s).2.session = none ∧
    (signOut s).2.user = none ∧
    isAuthenticated (signOut s).2 = false ∧
    signOut (signOut s).2 = (.ok (), (signOut s).2) := by
  simp [signOut, persistSession, isAuthenticated]

/-- C4: Session self-healing: when the session pointer holds an email
with no matching account (dangling pointer), `refreshSession` returns
`false`, clears the pointer and the user, and leaves `isAuthenticated`
false; `initialiseSession` performs the same clearing at startup. -/
theorem C4_session_self_heal (s : AuthState) (e : String)
    (hsess : s.session = some e)
    (hnone : ∀ a ∈ s.accounts, a.email ≠ e.toLower) :
    (refreshSession s).1 = .ok false ∧
    (refreshSession s).2.session = none ∧
    (refreshSession s).2.user = none ∧
    isAuthenticated (refreshSession s).2 = false ∧
    (initialiseSession s).session = none ∧
    (initialiseSession s).user = none ∧
    isAuthenticated (initialiseSession s) = false := by
  have hfind : s.accounts.find? (fun item => item.email == e.toLower) = none := by
    rw [List.find?_eq_none]
    intro a ha
    simpa using hnone a ha
  simp [refreshSession, initialiseSession, loadAccountForEmail, persistSession, hsess, hfind,
    isAuthenticated]

/-- C4 witness: a concrete dangling pointer (no accounts at all) is
cleared by `refreshSession` and `initialiseSession`. -/
theorem C4_session_self_heal_witness :
    (refreshSession ghostState).1 = .ok false ∧
    (refreshSession ghostState).2.session = none ∧
    (refreshSession ghostState).2.user = none ∧
    isAuthenticated (refreshSession ghostState).2 = false ∧
    (initialiseSession ghostState).session = none ∧
    (initialiseSession ghostState).user = none ∧
    isAuthenticated (initialiseSession ghostState) = false :=
  C4_session_self_heal ghostState "ghost@x.com" rfl (by simp [ghostState])

/-- C10: No input validation at the core boundary: on the empty store
`signUp "" ""` succeeds, stores an account whose normalized email is
`""`, authenticates, and a subsequent `signIn "" ""` succeeds. -/
theorem C10_empty_credentials (hash : String → String) (createdAt : String) :
    (signUp hash "" "" createdAt initialState).1 = .ok () ∧
    (signUp hash "" "" createdAt initialState).2.accounts =
      [{ email := "", passwordHash := hash "", createdAt := createdAt }] ∧
    isAuthenticated (signUp hash "" "" createdAt initialState).2 = true ∧
    (signUp hash "" "" createdAt initialState).2.user = some ⟨"", createdAt⟩ ∧
    (signIn hash "" "" (signUp hash "" "" createdAt initialState).2).1 = .ok () ∧
    isAuthenticated (signIn hash "" "" (signUp hash "" "" createdAt initialState).2).2 = true := by
  have h : "".toLower = "" := by simp [String.toLower, String.map_eq]
  simp [signUp, signIn, initialState, isAuthenticated, persistSession, h,
    persistSession_accounts, persistSession_user]

/-- C1: Credential round-trip with case-insensitive email: after
`signUp e pw` on the empty store, `signIn e' pw` succeeds for any `e'`
agreeing with `e` up to letter case, and `signIn e (pw ++ "x")` fails
with `InvalidCredential` (given the two digests differ, a consequence of
the digest function's collision resistance). -/
theorem C1_credential_roundtrip (hash : String → String) (e e' pw createdAt : String)
    (hcase : e'.toLower = e.toLower)
    (hneq : hash (pw ++ "x") ≠ hash pw) :
    (signUp hash e pw createdAt initialState).1 = .ok () ∧
    (signIn hash e' pw (signUp hash e pw createdAt initialState).2).1 = .ok () ∧
    (signIn hash e (pw ++ "x") (signUp hash e pw createdAt initialState).2).1 =
      .error .invalidCredential := by
  simp [signUp, signIn, initialState, hcase, Ne.symm hneq, persistSession_accounts,
    persistSession_user]

/-- C1 witness: the spec's concrete case `signUp "A@b.com" "p"` then
`signIn "a@B.COM" "p"` succeeds and `signIn "A@b.com" "px"` fails, with
the identity digest. -/
theorem C1_credential_roundtrip_witness :
    (signUp id "A@b.com" "p" "t0" initialState).1 = .ok () ∧
    (signIn id "a@B.COM" "p" (signUp id "A@b.com" "p" "t0" initialState).2).1 = .ok () ∧
    (signIn id "A@b.com" ("p" ++ "x") (signUp id "A@b.com" "p" "t0" initialState).2).1 =
      .error .invalidCredential :=
  C1_credential_roundtrip id "A@b.com" "a@B.COM" "p" "t0"
    (by simp [String.toLower, String.map_eq]) (by decide)

/-- C6: Reset expiry: a reset token whose `expiresAt` is in the past
makes `verifyPasswordReset` fail with `ResetExpired` and purges the
token as a side effect, after which any further call for the same email
fails with `ResetNotFound`. -/
theorem C6_reset_expired (hash : String → String)
    (email otp newPassword otp2 newPassword2 : String) (now now2 : Nat)
    (s : AuthState) (t : PasswordResetToken)
    (hfind : s.resetTokens.find? (fun item => item.email == email.toLower) = some t)
    (hexp : t.expiresAt < now) :
    verifyPasswordReset hash email otp newPassword now s =
      (.error .resetExpired,
        { s with resetTokens :=
            s.resetTokens.filter (fun item => item.email != email.toLower) }) ∧
    (verifyPasswordReset hash email otp2 newPassword2 now2
        (verifyPasswordReset hash email otp newPassword now s).2).1 = .error .resetNotFound := by
  have h1 : verifyPasswordReset hash email otp newPassword now s =
      (.error .resetExpired,
        { s with resetTokens :=
            s.resetTokens.filter (fun item => item.email != email.toLower) }) := by
    simp [verifyPasswordReset, hfind, hexp]
  refine ⟨h1, ?_⟩
  rw [h1]
  have h2 : List.find? (fun (_ : PasswordResetToken) => false) s.resetTokens = none := by
    rw [List.find?_eq_none]
    simp
  simp [verifyPasswordReset, h2]

/-- C6 witness: the concrete expired token in `expiredState` is reported
`ResetExpired` and purged; the retry finds no token. -/
theorem C6_reset_expired_witness :
    verifyPasswordReset id "a@b.com" "123456" "npw" 2000 expiredState =
      (.error .resetExpired,
        { expiredState with resetTokens :=
            expiredState.resetTokens.filter (fun item => item.email != "a@b.com".toLower) }) ∧
    (verifyPasswordReset id "a@b.com" "123456" "npw" 3000
        (verifyPasswordReset id "a@b.com" "123456" "npw" 2000 expiredState).2).1 =
      .error .resetNotFound :=
  C6_reset_expired id "a@b.com" "123456" "npw" "123456" "npw" 2000 3000 expiredState
    ⟨"a@b.com", "123456", 1000⟩
    (by simp [expiredState, String.toLower, String.map_eq]) (by decide)

/-- C7: Wrong-code retry atomicity: a live token with a mismatching code
digest makes `verifyPasswordReset` fail with `InvalidCode` leaving the
whole state (token included) unchanged, and a later call with the
correct code before expiry succeeds. -/
theorem C7_wrong_code_retry (hash : String → String)
    (email otp newPassword otp2 newPassword2 : String) (now now2 : Nat)
    (s : AuthState) (t : PasswordResetToken) (i : Nat)
    (hfind : s.resetTokens.find? (fun item => item.email == email.toLower) = some t)
    (hexp : ¬ t.expiresAt < now)
    (hwrong : hash otp ≠ t.otpHash)
    (hexp2 : ¬ t.expiresAt < now2)
    (hright : hash otp2 = t.otpHash)
    (hidx : s.accounts.findIdx? (fun account => account.email == email.toLower) = some i) :
    verifyPasswordReset hash email otp newPassword now s = (.error .invalidCode, s) ∧
    (verifyPasswordReset hash email otp2 newPassword2 now2 s).1 = .ok () := by
  obtain ⟨hlen, -, -⟩ := List.findIdx?_eq_some_iff_getElem.mp hidx
  constructor
  · simp [verifyPasswordReset, hfind, hexp, hwrong]
  · simp [verifyPasswordReset, hfind, hexp2, hright, hidx, List.getElem?_eq_getElem hlen]

/-- C7 witness: in `liveResetState`, code `"000000"` is rejected with
`InvalidCode` without touching the state, and code `"123456"` then
succeeds. -/
theorem C7_wrong_code_retry_witness :
    verifyPasswordReset id "a@b.com" "000000" "npw" 1000 liveResetState =
      (.error .invalidCode, liveResetState) ∧
    (verifyPasswordReset id "a@b.com" "123456" "npw" 2000 liveResetState).1 = .ok () :=
  C7_wrong_code_retry id "a@b.com" "000000" "npw" "123456" "npw" 1000 2000 liveResetState
    ⟨"a@b.com", "123456", 600000⟩ 0
    (by simp [liveResetState, String.toLower, String.map_eq]) (by decide) (by decide)
    (by decide) (by decide)
    (by simp [liveResetState, String.toLower, String.map_eq])

/-- C3 counterexample: the claim clause "sets the Session Pointer"
fails on the code at the reachable empty-email account (`signUp "" ""`
succeeds, then a reset token for `""` can be planted): the success path
runs `persistSession("")`, whose `if (!email)` branch removes the
session key, so the call succeeds with all other C3 conclusions intact
while the session pointer ends absent instead of set. -/
theorem C3_verify_reset_success_counterexample :
    (verifyPasswordReset id "" "123456" "npw" 1000 emptyEmailState).1 = .ok () ∧
    (verifyPasswordReset id "" "123456" "npw" 1000 emptyEmailState).2.user =
      some ⟨"", "t0"⟩ ∧
    (verifyPasswordReset id "" "123456" "npw" 1000 emptyEmailState).2.session = none := by
  have h : "".toLower = "" := by simp [String.toLower, String.map_eq]
  refine ⟨?_, ?_, ?_⟩ <;>
    simp [verifyPasswordReset, emptyEmailState, persistSession, h]

/-- C3 (amended): verifyPasswordReset success postcondition and single
use: with a live token whose digest matches and an existing account, the
call replaces only that account's password digest (email, createdAt and
all other accounts untouched), deletes the token, authenticates with the
account's projection, and persists the session pointer — setting it to
the account's email except when that email is the empty string, which
`persistSession` treats as falsy and therefore clears the pointer; an
immediately repeated call with the same code fails with
`ResetNotFound`. -/
theorem C3_verify_reset_success_amended (hash : String → String)
    (email otp newPassword : String) (now : Nat) (s : AuthState)
    (t : PasswordResetToken) (i : Nat) (acc : StoredAccount)
    (hfind : s.resetTokens.find? (fun item => item.email == email.toLower) = some t)
    (hexp : ¬ t.expiresAt < now)
    (hmatch : hash otp = t.otpHash)
    (hidx : s.accounts.findIdx? (fun account => account.email == email.toLower) = some i)
    (hget : s.accounts[i]? = some acc) :
    verifyPasswordReset hash email otp newPassword now s =
      (.ok (),
        { s with
            accounts := s.accounts.set i { acc with passwordHash := hash newPassword },
            resetTokens := s.resetTokens.filter (fun item => item.email != email.toLower),
            user := some ⟨acc.email, acc.createdAt⟩,
            session := if acc.email == "" then none else some acc.email }) ∧
    (s.accounts.set i { acc with passwordHash := hash newPassword })[i]? =
      some { acc with passwordHash := hash newPassword } ∧
    (∀ j, j ≠ i →
      (s.accounts.set i { acc with passwordHash := hash newPassword })[j]? = s.accounts[j]?) ∧
    (verifyPasswordReset hash email otp newPassword now
        (verifyPasswordReset hash email otp newPassword now s).2).1 = .error .resetNotFound := by
  obtain ⟨hlen, -, -⟩ := List.findIdx?_eq_some_iff_getElem.mp hidx
  have hacc : s.accounts[i] = acc := by
    have := List.getElem?_eq_getElem hlen
    rw [this] at hget
    exact Option.some.inj hget
  have h1 : verifyPasswordReset hash email otp newPassword now s =
      (.ok (),
        { s with
            accounts := s.accounts.set i { acc with passwordHash := hash newPassword },
            resetTokens := s.resetTokens.filter (fun item => item.email != email.toLower),
            user := some ⟨acc.email, acc.createdAt⟩,
            session := if acc.email == "" then none else some acc.email }) := by
    by_cases he : acc.email == "" <;>
      simp [verifyPasswordReset, hfind, hexp, hmatch, hidx, hget, persistSession, he]
  refine ⟨h1, ?_, ?_, ?_⟩
  · exact List.getElem?_set_self (by simpa using hlen)
  · intro j hj
    exact List.getElem?_set_ne (Ne.symm hj)
  · rw [h1]
    have h2 : List.find? (fun (_ : PasswordResetToken) => false) s.resetTokens = none := by
      rw [List.find?_eq_none]
      simp
    simp [verifyPasswordReset, h2]

/-- C3 witness: the concrete live token in `liveResetState` is consumed:
the password digest becomes `"npw"`, the other fields survive, the state
authenticates and (the email being non-empty) the session pointer is
set, and an immediate identical retry fails `ResetNotFound`. -/
theorem C3_verify_reset_success_amended_witness :
    verifyPasswordReset id "a@b.com" "123456" "npw" 1000 liveResetState =
      (.ok (),
        { liveResetState with
            accounts := liveResetState.accounts.set 0 ⟨"a@b.com", "npw", "t0"⟩,
            resetTokens :=
              liveResetState.resetTokens.filter (fun item => item.email != "a@b.com".toLower),
            user := some ⟨"a@b.com", "t0"⟩,
            session := if "a@b.com" == "" then none else some "a@b.com" }) ∧
    (liveResetState.accounts.set 0 ⟨"a@b.com", "npw", "t0"⟩)[0]? =
      some ⟨"a@b.com", "npw", "t0"⟩ ∧
    (∀ j, j ≠ 0 →
      (liveResetState.accounts.set 0 ⟨"a@b.com", "npw", "t0"⟩)[j]? =
        liveResetState.accounts[j]?) ∧
    (verifyPasswordReset id "a@b.com" "123456" "npw" 1000
        (verifyPasswordReset id "a@b.com" "123456" "npw" 1000 liveResetState).2).1 =
      .error .resetNotFound :=
  C3_verify_reset_success_amended id "a@b.com" "123456" "npw" 1000 liveResetState
    ⟨"a@b.com", "123456", 600000⟩ 0 ⟨"a@b.com", "h0", "t0"⟩
    (by simp [liveResetState, String.toLower, String.map_eq]) (by decide) (by decide)
    (by simp [liveResetState, String.toLower, String.map_eq])
    (by simp [liveResetState])

/-- `Char.toLower` is idempotent: lowering an already-lowered character
changes nothing. -/
theorem charToLower_idem (c : Char) : c.toLower.toLower = c.toLower := by
  by_cases h : 65 ≤ c.toNat ∧ c.toNat ≤ 90
  · have h1 : c.toLower = Char.ofNat (c.toNat + 32) := by
      simp [Char.toLower, h.1, h.2]
    rw [h1]
    obtain ⟨ha, hb⟩ := h
    generalize hg : c.toNat = n
    rw [hg] at ha hb
    interval_cases n <;> decide
  · have h1 : c.toLower = c := by
      simp [Char.toLower, h]
    rw [h1, h1]

/-- `String.toLower` is idempotent, so a normalized email is a fixed
point of normalization. -/
theorem strToLower_idem (s : String) : s.toLower.toLower = s.toLower := by
  simp only [String.toLower, String.map_eq, List.map_map]
  congr 1
  apply List.map_congr_left
  intro c _
  exact charToLower_idem c

/-- Setting index `i` to the value already stored there leaves the list
unchanged. -/
theorem set_getElem_self_eq {β : Type} (l : List β) (i : Nat) (a : β)
    (h : l[i]? = some a) : l.set i a = l := by
  apply List.ext_getElem?
  intro j
  by_cases hj : j = i
  · subst hj
    have hlen : j < l.length := by
      by_contra hn
      rw [List.getElem?_eq_none (Nat.le_of_not_lt hn)] at h
      exact Option.noConfusion h
    rw [List.getElem?_set_self hlen, h]
  · rw [List.getElem?_set_ne (fun he => hj he.symm)]

/-- Replacing the account at `i` with one carrying the same email leaves
the email sequence unchanged. -/
theorem emails_map_set (l : List StoredAccount) (i : Nat) (x acc : StoredAccount)
    (hget : l[i]? = some acc) (hx : x.email = acc.email) :
    (l.set i x).map (fun a => a.email) = l.map (fun a => a.email) := by
  rw [List.map_set]
  apply set_getElem_self_eq
  rw [List.getElem?_map, hget]
  simp [hx]

/-- Every operation of the auth state machine preserves the
account-collection invariant. -/
theorem accountsInv_stepOp (hash : String → String) (op : AuthOp) (s : AuthState)
    (h : AccountsInv s) : AccountsInv (stepOp hash op s) := by
  obtain ⟨hpw, hlow⟩ := h
  cases op with
  | opSignIn email password =>
    simp only [stepOp, signIn]
    split
    · exact ⟨hpw, hlow⟩
    · split
      · exact ⟨hpw, hlow⟩
      · exact accountsInv_persistSession _ _ ⟨hpw, hlow⟩
  | opSignUp email password createdAt =>
    simp only [stepOp, signUp]
    split
    next hdup => exact ⟨hpw, hlow⟩
    next hdup =>
      have hne : ∀ a ∈ s.accounts, a.email ≠ email.toLower := by
        intro a ha heq
        exact hdup (List.any_eq_true.mpr ⟨a, ha, by simp [heq]⟩)
      refine accountsInv_persistSession _ _ ⟨?_, ?_⟩
      · rw [List.pairwise_append]
        refine ⟨hpw, List.pairwise_singleton _ _, ?_⟩
        intro a ha b hb
        simp only [List.mem_singleton] at hb
        subst hb
        simpa using hne a ha
      · intro a ha
        rcases List.mem_append.mp ha with h1 | h1
        · exact hlow a h1
        · simp only [List.mem_singleton] at h1
          subst h1
          exact strToLower_idem email
  | opSignOut => exact accountsInv_persistSession _ _ ⟨hpw, hlow⟩
  | opRequestReset email rand now =>
    simp only [stepOp, requestPasswordReset]
    split
    · exact ⟨hpw, hlow⟩
    · exact ⟨hpw, hlow⟩
  | opVerifyReset email otp newPassword now =>
    simp only [stepOp, verifyPasswordReset]
    split
    · exact ⟨hpw, hlow⟩
    · split
      · exact ⟨hpw, hlow⟩
      · split
        · exact ⟨hpw, hlow⟩
        · split
          · exact ⟨hpw, hlow⟩
          next i hidx =>
            split
            · exact ⟨hpw, hlow⟩
            next acc hget =>
              refine accountsInv_persistSession _ _ ⟨?_, ?_⟩
              · have hmap := emails_map_set s.accounts i
                  { acc with passwordHash := hash newPassword } acc hget rfl
                have hpw' : ((s.accounts.set i
                    { acc with passwordHash := hash newPassword }).map
                      (fun a : StoredAccount => a.email)).Pairwise (· ≠ ·) := by
                  rw [hmap]
                  exact List.pairwise_map.mpr hpw
                exact List.pairwise_map.mp hpw'
              · intro a ha
                rcases List.mem_or_eq_of_mem_set ha with h1 | h1
                · exact hlow a h1
                · subst h1
                  exact hlow acc (List.getElem?_mem hget)
  | opRefreshSession =>
    simp only [stepOp, refreshSession]
    split
    · exact ⟨hpw, hlow⟩
    · exact accountsInv_persistSession _ _ ⟨hpw, hlow⟩
  | opInitialiseSession =>
    simp only [stepOp, initialiseSession]
    split
    · exact ⟨hpw, hlow⟩
    · exact accountsInv_persistSession _ _ ⟨hpw, hlow⟩

/-- Every state reachable from the empty store satisfies the
account-collection invariant. -/
theorem accountsInv_runOps (hash : String → String) (ops : List AuthOp) :
    AccountsInv (runOps hash ops) := by
  have hinit : AccountsInv initialState := by
    constructor
    · exact List.Pairwise.nil
    · intro a ha
      simp [initialState] at ha
  have hgen : ∀ (l : List AuthOp) (s : AuthState), AccountsInv s →
      AccountsInv (l.foldl (fun s op => stepOp hash op s) s) := by
    intro l
    induction l with
    | nil => intro s hs; exact hs
    | cons op rest ih =>
      intro s hs
      exact ih _ (accountsInv_stepOp hash op s hs)
  exact hgen ops initialState hinit

/-- C2: Account uniqueness invariant: from the empty store, after any
sequence of operations no two stored accounts share a normalized
(lowercased) email, and a `signUp` whose normalized email matches an
existing account (in any letter case) fails with `DuplicateAccount`
leaving the state unchanged. -/
theorem C2_account_uniqueness (hash : String → String) (ops : List AuthOp) :
    (runOps hash ops).accounts.Pairwise
      (fun a b => a.email.toLower ≠ b.email.toLower) ∧
    ∀ (email password createdAt : String) (a : StoredAccount),
      a ∈ (runOps hash ops).accounts → a.email = email.toLower →
      signUp hash email password createdAt (runOps hash ops) =
        (.error .duplicateAccount, runOps hash ops) := by
  obtain ⟨hpw, hlow⟩ := accountsInv_runOps hash ops
  constructor
  · refine hpw.imp_of_mem ?_
    intro a b ha hb hne
    rw [hlow a ha, hlow b hb]
    exact hne
  · intro email password createdAt a ha heq
    have hany : ((runOps hash ops).accounts.any
        (fun account => account.email == email.toLower)) = true :=
      List.any_eq_true.mpr ⟨a, ha, by simp [heq]⟩
    simp [signUp, hany]

/-- C2 witness: after `signUp "A@b.com" "p"` from the empty store the
account emails are unique, and a second sign-up as `"a@B.COM"` fails
with `DuplicateAccount` without touching the state. -/
theorem C2_account_uniqueness_witness :
    (runOps id [AuthOp.opSignUp "A@b.com" "p" "t0"]).accounts.Pairwise
      (fun a b => a.email.toLower ≠ b.email.toLower) ∧
    signUp id "a@B.COM" "q" "t1" (runOps id [AuthOp.opSignUp "A@b.com" "p" "t0"]) =
      (.error .duplicateAccount, runOps id [AuthOp.opSignUp "A@b.com" "p" "t0"]) :=
  ⟨(C2_account_uniqueness id [AuthOp.opSignUp "A@b.com" "p" "t0"]).1,
   (C2_account_uniqueness id [AuthOp.opSignUp "A@b.com" "p" "t0"]).2
     "a@B.COM" "q" "t1" ⟨"a@b.com", "p", "t0"⟩
     (by simp [runOps, stepOp, signUp, initialState, String.toLower, String.map_eq,
       persistSession_accounts])
     (by simp [String.toLower, String.map_eq])⟩

/-- One step of `Nat.toDigitsCore` at base 10 with positive fuel. -/
theorem toDigitsCore_succ_step (f n : Nat) (ds : List Char) :
    Nat.toDigitsCore 10 (f + 1) n ds =
      if n / 10 = 0 then Nat.digitChar (n % 10) :: ds
      else Nat.toDigitsCore 10 f (n / 10) (Nat.digitChar (n % 10) :: ds) := rfl

/-- With enough fuel, `Nat.toDigitsCore` at base 10 produces exactly the
decimal digit characters followed by the accumulator. -/
theorem toDigitsCore_eq_decChars (fuel : Nat) :
    ∀ (n : Nat) (ds : List Char), 0 < fuel → n < 10 ^ fuel →
    Nat.toDigitsCore 10 fuel n ds = decChars n ++ ds := by
  induction fuel with
  | zero => intro n ds h; omega
  | succ f ih =>
    intro n ds _ hlt
    rw [toDigitsCore_succ_step]
    by_cases h0 : n / 10 = 0
    · have hn : n < 10 := by omega
      rw [decChars]
      simp [h0, hn, Nat.mod_eq_of_lt hn]
    · have hn : ¬ n < 10 := fun hc => h0 (Nat.div_eq_of_lt hc)
      have hf : 0 < f := by
        rcases Nat.eq_zero_or_pos f with rfl | hf
        · simp at hlt
          omega
        · exact hf
      have hdiv : n / 10 < 10 ^ f := by
        apply Nat.div_lt_of_lt_mul
        calc n < 10 ^ (f + 1) := hlt
        _ = 10 * 10 ^ f := by ring
      have hdec : decChars n = decChars (n / 10) ++ [Nat.digitChar (n % 10)] := by
        rw [decChars]
        simp [hn]
      rw [if_neg h0, ih (n / 10) (Nat.digitChar (n % 10) :: ds) hf hdiv, hdec]
      simp

/-- `Nat.repr` renders exactly the decimal digit characters. -/
theorem repr_eq_decChars (n : Nat) : Nat.repr n = (decChars n).asString := by
  have h : n < 10 ^ (n + 1) := by
    calc n < 10 ^ n := Nat.lt_pow_self (by decide) n
    _ ≤ 10 ^ (n + 1) := Nat.pow_le_pow_right (by decide) (Nat.le_succ n)
  rw [Nat.repr, Nat.toDigits, toDigitsCore_eq_decChars (n + 1) n [] (Nat.succ_pos n) h,
    List.append_nil]

/-- A number in `[10 ^ k, 10 ^ (k + 1))` has exactly `k + 1` decimal
digit characters. -/
theorem decChars_length (k : Nat) :
    ∀ n, 10 ^ k ≤ n → n < 10 ^ (k + 1) → (decChars n).length = k + 1 := by
  induction k with
  | zero =>
    intro n h1 h2
    have hn : n < 10 := by simpa using h2
    rw [decChars]
    simp [hn]
  | succ k ih =>
    intro n h1 h2
    have h10 : (10 : Nat) ≤ 10 ^ (k + 1) := by
      calc (10 : Nat) = 10 ^ 1 := (pow_one 10).symm
      _ ≤ 10 ^ (k + 1) := Nat.pow_le_pow_right (by decide) (by omega)
    have hn : ¬ n < 10 := by omega
    have hd1 : 10 ^ k ≤ n / 10 := by
      rw [Nat.le_div_iff_mul_le (by decide : 0 < 10)]
      calc 10 ^ k * 10 = 10 ^ (k + 1) := by ring
      _ ≤ n := h1
    have hd2 : n / 10 < 10 ^ (k + 1) := by
      apply Nat.div_lt_of_lt_mul
      calc n < 10 ^ (k + 2) := h2
      _ = 10 * 10 ^ (k + 1) := by ring
    rw [decChars]
    simp only [hn, dite_false]
    rw [List.length_append, ih (n / 10) hd1 hd2]
    simp

/-- Every character produced by `decChars` is a decimal digit. -/
theorem decChars_digits (n : Nat) : ∀ c ∈ decChars n, c.isDigit = true := by
  induction n using Nat.strong_induction_on with
  | _ n ih =>
    by_cases hn : n < 10
    · intro c hc
      rw [decChars] at hc
      simp [hn] at hc
      subst hc
      interval_cases n <;> decide
    · intro c hc
      rw [decChars] at hc
      simp only [hn, dite_false, List.mem_append] at hc
      rcases hc with h1 | h1
      · exact ih (n / 10) (Nat.div_lt_self (by omega) (by decide)) c h1
      · simp only [List.mem_singleton] at h1
        subst h1
        have hm : n % 10 < 10 := Nat.mod_lt n (by decide)
        generalize hg : n % 10 = m at hm
        interval_cases m <;> decide

/-- C5: requestPasswordReset postcondition: for an existing account it
returns the plaintext code — a string of exactly 6 decimal digit
characters rendering a value in the fixed range `[100000, 999999]` —
stores a token whose expiry is issuance time plus 10 minutes
(600000 ms), removes any prior token for that normalized email (leaving
exactly one), and leaves the authenticated user unchanged. -/
theorem C5_request_reset (hash : String → String) (email : String) (rand now : Nat)
    (s : AuthState) (acc : StoredAccount)
    (hrand : rand < 900000)
    (hfind : s.accounts.find? (fun account => account.email == email.toLower) = some acc) :
    requestPasswordReset hash email rand now s =
      (.ok (generateOtp rand),
        { s with resetTokens :=
            s.resetTokens.filter (fun token => token.email != email.toLower) ++
              [{ email := email.toLower, otpHash := hash (generateOtp rand),
                 expiresAt := now + 10 * 60 * 1000 }] }) ∧
    generateOtp rand = Nat.repr (100000 + rand) ∧
    100000 ≤ 100000 + rand ∧ 100000 + rand ≤ 999999 ∧
    (generateOtp rand).length = 6 ∧
    (∀ c ∈ (generateOtp rand).data, c.isDigit = true) ∧
    (requestPasswordReset hash email rand now s).2.resetTokens.filter
        (fun token => token.email == email.toLower) =
      [{ email := email.toLower, otpHash := hash (generateOtp rand),
         expiresAt := now + 10 * 60 * 1000 }] ∧
    (requestPasswordReset hash email rand now s).2.user = s.user := by
  have h1 : requestPasswordReset hash email rand now s =
      (.ok (generateOtp rand),
        { s with resetTokens :=
            s.resetTokens.filter (fun token => token.email != email.toLower) ++
              [{ email := email.toLower, otpHash := hash (generateOtp rand),
                 expiresAt := now + 10 * 60 * 1000 }] }) := by
    simp [requestPasswordReset, hfind]
  have hlen : (generateOtp rand).length = 6 := by
    show (Nat.repr (100000 + rand)).length = 6
    rw [repr_eq_decChars]
    have h5 : (10 : Nat) ^ 5 ≤ 100000 + rand := by norm_num
    have h6 : 100000 + rand < 10 ^ (5 + 1) := by
      norm_num
      omega
    have := decChars_length 5 (100000 + rand) h5 h6
    simpa using this
  have hdig : ∀ c ∈ (generateOtp rand).data, c.isDigit = true := by
    show ∀ c ∈ (Nat.repr (100000 + rand)).data, c.isDigit = true
    rw [repr_eq_decChars]
    exact decChars_digits (100000 + rand)
  refine ⟨h1, rfl, by omega, by omega, hlen, hdig, ?_, ?_⟩
  · rw [h1]
    simp only [List.filter_append, List.filter_filter]
    have e1 : s.resetTokens.filter
        (fun a => (a.email == email.toLower) && (a.email != email.toLower)) = [] := by
      simp
    rw [e1]
    simp
  · rw [h1]

/-- C5 witness: from `liveResetState`, a reset request for the stored
account with draw 271828 at time 0 yields the 6-digit code `"371828"`,
stores a token expiring at 600000 ms replacing the prior token, and
leaves the user unchanged. -/
theorem C5_request_reset_witness :
    requestPasswordReset id "a@b.com" 271828 0 liveResetState =
      (.ok (generateOtp 271828),
        { liveResetState with
            resetTokens :=
              liveResetState.resetTokens.filter (fun token => token.email != "a@b.com".toLower) ++
                [{ email := "a@b.com".toLower, otpHash := id (generateOtp 271828),
                   expiresAt := 0 + 10 * 60 * 1000 }] }) ∧
    generateOtp 271828 = Nat.repr (100000 + 271828) ∧
    100000 ≤ 100000 + 271828 ∧ 100000 + 271828 ≤ 999999 ∧
    (generateOtp 271828).length = 6 ∧
    (∀ c ∈ (generateOtp 271828).data, c.isDigit = true) ∧
    (requestPasswordReset id "a@b.com" 271828 0 liveResetState).2.resetTokens.filter
        (fun token => token.email == "a@b.com".toLower) =
      [{ email := "a@b.com".toLower, otpHash := id (generateOtp 271828),
         expiresAt := 0 + 10 * 60 * 1000 }] ∧
    (requestPasswordReset id "a@b.com" 271828 0 liveResetState).2.user =
      liveResetState.user :=
  C5_request_reset id "a@b.com" 271828 0 liveResetState ⟨"a@b.com", "h0", "t0"⟩
    (by decide) (by simp [liveResetState, String.toLower, String.map_eq])
